import Mathlib

/-!
Verification of the XRFLab spectrum-analysis library.

The Python sources are shallowly embedded: NumPy float arrays become
lists of real numbers, pure numerical routines become Lean functions on
those lists, and the stateful calibrator object becomes explicit state
passing.  Calls into the SciPy optimizer (curve_fit, minimize) are
opaque numerical solvers; each such call is modelled by an oracle
parameter supplying the fitted parameters, and the surrounding logic --
guards, windowing, filtering, statistics -- is translated literally.
-/

namespace XRFLab

/-! ## core/peak_fitting.py: detector FWHM model -/

/-- Class-level detector parameters of PeakFitter (FWHM_0, EPSILON).
These are process-wide mutable class attributes in Python, so the model
takes them as an explicit configuration record. -/
structure PeakFitterConfig where
  FWHM_0 : ℝ
  EPSILON : ℝ

/-- Class defaults: FWHM_0 = 0.050 keV, EPSILON = 0.0015. -/
def defaultPeakFitterConfig : PeakFitterConfig :=
  { FWHM_0 := 0.050, EPSILON := 0.0015 }

/-- PeakFitter.calculate_fwhm: np.sqrt(FWHM_0**2 + 2.35 * EPSILON * energy).
Note the literal coefficient 2.35 in the source. -/
noncomputable def calculate_fwhm (cfg : PeakFitterConfig) (energy : ℝ) : ℝ :=
  Real.sqrt (cfg.FWHM_0 ^ 2 + 2.35 * cfg.EPSILON * energy)

/-- Modelled from the spec: the stated detector resolution model
FWHM(E) = sqrt(FWHM0^2 + 2.355^2 * eps * E), written from the spec
sentence for comparison with the source functions. -/
noncomputable def specDetectorFWHM (fwhm_0 epsilon energy : ℝ) : ℝ :=
  Real.sqrt (fwhm_0 ^ 2 + 2.355 ^ 2 * epsilon * energy)

/-! ## core/fwhm_calibration.py: FWHMCalibration -/

/-- FWHMCalibration dataclass.  Python dicts of named float parameters
become association lists. -/
structure FWHMCalibration where
  model_type : String
  parameters : List (String × ℝ)
  parameter_errors : List (String × ℝ)
  r_squared : ℝ
  rmse : ℝ
  aic : ℝ
  bic : ℝ
  n_peaks : ℤ
  energy_range : ℝ × ℝ
  calibration_date : String

/-- Dictionary key access self.parameters[k]; none models a KeyError. -/
def lookupParam (ps : List (String × ℝ)) (k : String) : Option ℝ :=
  (ps.find? (fun p => p.1 = k)).map (fun p => p.2)

/-- FWHMCalibration.predict_fwhm.  Branches on model_type exactly as the
source; a missing dictionary key or an unknown model type yields none
(KeyError / ValueError). -/
noncomputable def predict_fwhm (cal : FWHMCalibration) (energy : ℝ) : Option ℝ :=
  if cal.model_type = "detector" then do
    let fwhm_0 ← lookupParam cal.parameters "fwhm_0"
    let epsilon ← lookupParam cal.parameters "epsilon"
    pure (Real.sqrt (fwhm_0 ^ 2 + 2.355 ^ 2 * epsilon * energy))
  else if cal.model_type = "linear" then do
    let a ← lookupParam cal.parameters "intercept"
    let b ← lookupParam cal.parameters "slope"
    pure (a + b * energy)
  else if cal.model_type = "quadratic" then do
    let a ← lookupParam cal.parameters "intercept"
    let b ← lookupParam cal.parameters "linear_coef"
    let c ← lookupParam cal.parameters "quadratic_coef"
    pure (a + b * energy + c * energy ^ 2)
  else if cal.model_type = "exponential" then do
    let a ← lookupParam cal.parameters "amplitude"
    let b ← lookupParam cal.parameters "exponent"
    pure (a * Real.exp (b * energy))
  else if cal.model_type = "power" then do
    let a ← lookupParam cal.parameters "amplitude"
    let b ← lookupParam cal.parameters "power"
    pure (a * energy ^ b)
  else
    none

/-! ## core/calibration.py: window estimate inside
_prepare_element_data_from_spectrum -/

/-- The FWHM window estimate at line 359 of core/calibration.py:
fwhm_est = np.sqrt(fwhm_0**2 + 2.35 * epsilon * line_energy).
Again the literal coefficient is 2.35. -/
noncomputable def prepare_fwhm_est (fwhm_0 epsilon line_energy : ℝ) : ℝ :=
  Real.sqrt (fwhm_0 ^ 2 + 2.35 * epsilon * line_energy)

/-! ## List and NumPy helpers -/

/-- NumPy boolean-mask indexing xs[mask]: keep the entries whose mask
bit is true, in order. -/
def maskSelect {α : Type} (xs : List α) (mask : List Bool) : List α :=
  ((xs.zip mask).filter (fun p => p.2)).map (fun p => p.1)

/-- np.mean. -/
noncomputable def npMean (xs : List ℝ) : ℝ := xs.sum / xs.length

/-- np.std: population standard deviation (ddof = 0). -/
noncomputable def npStd (xs : List ℝ) : ℝ :=
  Real.sqrt (npMean (xs.map (fun x => (x - npMean xs) ^ 2)))

/-! ## calibrate_peak_shape.py: PeakShapeCalibrator -/

/-- PeakMeasurement dataclass. -/
structure PeakMeasurement where
  element : String
  line : String
  energy : ℝ
  fwhm : ℝ
  intensity : ℝ
  fit_quality : ℝ

/-- The local resolution_model inside _remove_outliers (and the detector
fit_func of fit_resolution_model):
np.sqrt(fwhm_0**2 + 2.355**2 * epsilon * E). -/
noncomputable def resolution_model (E fwhm_0 epsilon : ℝ) : ℝ :=
  Real.sqrt (fwhm_0 ^ 2 + 2.355 ^ 2 * epsilon * E)

/-- The triple (energies, fwhms, self.measurements) threaded through
_remove_outliers; the measurements field is the calibrator state it
reads and writes. -/
structure OutlierRemoval where
  energies : List ℝ
  fwhms : List ℝ
  measurements : List PeakMeasurement

/-- PeakShapeCalibrator._remove_outliers.  The curve_fit call that
produces (fwhm_0, epsilon) is an opaque optimizer, passed in as popt;
everything after it is translated literally: residuals against the
fitted curve, population standard deviation, a 3-sigma mask, and
boolean-mask filtering of energies, fwhms and self.measurements. -/
noncomputable def remove_outliers (popt : ℝ × ℝ)
    (energies fwhms : List ℝ) (measurements : List PeakMeasurement)
    (threshold : ℝ := 3.0) : OutlierRemoval :=
  let fwhm_predicted := energies.map (fun E => resolution_model E popt.1 popt.2)
  let residuals := List.zipWith (fun f p => f - p) fwhms fwhm_predicted
  let std_residual := npStd residuals
  let outlier_mask := residuals.map (fun r => decide (|r| > threshold * std_residual))
  if outlier_mask.any (fun b => b) then
    { energies := maskSelect energies (outlier_mask.map (fun b => !b)),
      fwhms := maskSelect fwhms (outlier_mask.map (fun b => !b)),
      measurements := maskSelect measurements (outlier_mask.map (fun b => !b)) }
  else
    { energies := energies, fwhms := fwhms, measurements := measurements }

/-- Errors raised by fit_resolution_model, kept distinguishable:
the "Need at least 3 peak measurements" ValueError, the unknown-model
ValueError, and the wrapped "Resolution model fit failed" ValueError. -/
inductive CalibError where
  | insufficientPeaks
  | unknownModel
  | fitFailed
deriving DecidableEq

/-- Result dictionary of fit_resolution_model (statistics plus fitted
parameters popt and their standard errors perr). -/
structure ResolutionFitResults where
  model : String
  popt : List ℝ
  perr : List ℝ
  r_squared : ℝ
  rmse : ℝ
  aic : ℝ
  bic : ℝ

/-- The model names accepted by fit_resolution_model. -/
def knownModels : List String :=
  ["detector", "linear", "quadratic", "exponential", "power"]

/-- The fit_func selected for each model name, evaluated at fitted
parameters popt (power uses a real exponent, as E**b does). -/
noncomputable def evalFitModel (model : String) (popt : List ℝ) (E : ℝ) : ℝ :=
  if model = "detector" then
    Real.sqrt ((popt.getD 0 0) ^ 2 + 2.355 ^ 2 * popt.getD 1 0 * E)
  else if model = "linear" then popt.getD 0 0 + popt.getD 1 0 * E
  else if model = "quadratic" then
    popt.getD 0 0 + popt.getD 1 0 * E + popt.getD 2 0 * E ^ 2
  else if model = "exponential" then popt.getD 0 0 * Real.exp (popt.getD 1 0 * E)
  else popt.getD 0 0 * E ^ popt.getD 1 0

/-- The statistics block of fit_resolution_model: residuals against the
fitted curve, R-squared, RMSE, AIC and BIC. -/
noncomputable def buildFitResults (model : String) (popt perr : List ℝ)
    (energies fwhms : List ℝ) : ResolutionFitResults :=
  let fwhm_predicted := energies.map (evalFitModel model popt)
  let residuals := List.zipWith (fun f p => f - p) fwhms fwhm_predicted
  let ss_res := (residuals.map (fun r => r ^ 2)).sum
  let ss_tot := ((fwhms.map (fun f => (f - npMean fwhms) ^ 2))).sum
  { model := model, popt := popt, perr := perr,
    r_squared := 1 - ss_res / ss_tot,
    rmse := Real.sqrt (npMean (residuals.map (fun r => r ^ 2))),
    aic := (energies.length : ℝ) * Real.log (ss_res / energies.length)
      + 2 * popt.length,
    bic := (energies.length : ℝ) * Real.log (ss_res / energies.length)
      + (popt.length : ℝ) * Real.log (energies.length : ℝ) }

/-- The regression stage of fit_resolution_model: dispatch on the model
name (unknown names raise), run curve_fit (an oracle which may fail),
and assemble the results dictionary. -/
noncomputable def regressionStep
    (finalFit : String → List ℝ → List ℝ → Except Unit (List ℝ × List ℝ))
    (model : String) (energies fwhms : List ℝ) :
    Except CalibError ResolutionFitResults :=
  if model ∈ knownModels then
    match finalFit model energies fwhms with
    | Except.error _ => Except.error CalibError.fitFailed
    | Except.ok (popt, perr) =>
        Except.ok (buildFitResults model popt perr energies fwhms)
  else
    Except.error CalibError.unknownModel

/-- The calibrator state read and written by fit_resolution_model. -/
structure CalibratorState where
  measurements : List PeakMeasurement

/-- PeakShapeCalibrator.fit_resolution_model.  outlierFit and finalFit
are the two curve_fit oracles (outlier pre-fit, final regression).
Returns the result together with the post-call state. -/
noncomputable def fit_resolution_model (st : CalibratorState)
    (outlierFit : List ℝ → List ℝ → ℝ × ℝ)
    (finalFit : String → List ℝ → List ℝ → Except Unit (List ℝ × List ℝ))
    (removeOutliersFlag : Bool := true) (model : String := "detector") :
    Except CalibError ResolutionFitResults × CalibratorState :=
  if st.measurements.length < 3 then
    (Except.error CalibError.insufficientPeaks, st)
  else
    let energies := st.measurements.map (fun m => m.energy)
    let fwhms := st.measurements.map (fun m => m.fwhm)
    let stage :=
      if removeOutliersFlag = true ∧ energies.length > 5 then
        remove_outliers (outlierFit energies fwhms) energies fwhms st.measurements
      else
        { energies := energies, fwhms := fwhms, measurements := st.measurements }
    (regressionStep finalFit model stage.energies stage.fwhms,
      { measurements := stage.measurements })

/-! ## core/peak_fitting.py: Peak and fit_single_peak -/

/-- Fitted Peak dataclass (restricted to the fields set by
fit_single_peak; element, line and is_tube_line keep their defaults). -/
structure Peak where
  energy : ℝ
  amplitude : ℝ
  fwhm : ℝ
  area : ℝ
  shape : String
  shape_params : List (String × ℝ)

/-- Peak built by the gaussian branch of fit_single_peak from the
optimized parameters: fwhm = 2.355 sigma, area = amp sigma sqrt(2 pi). -/
noncomputable def mkGaussianPeak (amplitude center sigma : ℝ) : Peak :=
  { energy := center, amplitude := amplitude, fwhm := 2.355 * sigma,
    area := amplitude * sigma * Real.sqrt (2 * Real.pi),
    shape := "gaussian", shape_params := [("sigma", sigma)] }

/-- Peak built by the hypermet branch:
area = amp sigma sqrt(2 pi) (1 + tail_amplitude). -/
noncomputable def mkHypermetPeak (amplitude center sigma tail_amp tail_slope : ℝ) : Peak :=
  { energy := center, amplitude := amplitude, fwhm := 2.355 * sigma,
    area := amplitude * sigma * Real.sqrt (2 * Real.pi) * (1 + tail_amp),
    shape := "hypermet",
    shape_params := [("sigma", sigma), ("tail_amplitude", tail_amp),
      ("tail_slope", tail_slope)] }

/-- Peak built by the tail_gaussian branch: the source computes
area = amplitude * sigma * np.sqrt(2 * np.pi), with no term in
tail_fraction or tail_sigma. -/
noncomputable def mkTailGaussianPeak
    (amplitude center sigma tail_frac tail_sigma : ℝ) : Peak :=
  { energy := center, amplitude := amplitude, fwhm := 2.355 * sigma,
    area := amplitude * sigma * Real.sqrt (2 * Real.pi),
    shape := "tail_gaussian",
    shape_params := [("sigma", sigma), ("tail_fraction", tail_frac),
      ("tail_sigma", tail_sigma)] }

/-- Window width of fit_single_peak: 5 x FWHM-estimate below 3 keV
(low-energy peaks), else 3 x FWHM-estimate. -/
noncomputable def fit_window_width (cfg : PeakFitterConfig) (initial_center : ℝ) : ℝ :=
  if initial_center < 3.0 then 5.0 * calculate_fwhm cfg initial_center
  else 3.0 * calculate_fwhm cfg initial_center

/-- The boolean mask np.abs(energy - initial_center) < window_width. -/
noncomputable def fitWindowMask (cfg : PeakFitterConfig)
    (energy : List ℝ) (initial_center : ℝ) : List Bool :=
  energy.map (fun e => decide (|e - initial_center| < fit_window_width cfg initial_center))

/-- PeakFitter.fit_single_peak.  curve_fit is an opaque optimizer,
modelled by an oracle from the shape name and the windowed data to the
optimized parameter vector (none models a fit exception, which the
source catches and turns into a None return).  The windowing guard -
fewer than 5 samples in the window returns None - precedes every shape
branch.  The voigt and pseudo_voigt branches, not touched by any claim,
are elided into the final catch-all. -/
noncomputable def fit_single_peak (cfg : PeakFitterConfig)
    (curveFit : String → List ℝ → List ℝ → Option (List ℝ))
    (energy counts : List ℝ) (initial_center : ℝ) (shape : String) : Option Peak :=
  let mask := fitWindowMask cfg energy initial_center
  if mask.count true < 5 then none
  else
    let x_fit := maskSelect energy mask
    let y_fit := maskSelect counts mask
    if shape = "gaussian" then
      match curveFit shape x_fit y_fit with
      | some [amplitude, center, sigma] => some (mkGaussianPeak amplitude center sigma)
      | _ => none
    else if shape = "hypermet" then
      match curveFit shape x_fit y_fit with
      | some [amplitude, center, sigma, tail_amp, tail_slope] =>
          some (mkHypermetPeak amplitude center sigma tail_amp tail_slope)
      | _ => none
    else if shape = "tail_gaussian" then
      match curveFit shape x_fit y_fit with
      | some [amplitude, center, sigma, tail_frac, tail_sigma] =>
          some (mkTailGaussianPeak amplitude center sigma tail_frac tail_sigma)
      | _ => none
    else none

/-! ## core/calibration.py: InstrumentCalibrator._objective_function -/

/-- NumPy slicing xs[::n] - every n-th entry. -/
def everyNth {α : Type} (n : Nat) (xs : List α) : List α :=
  (xs.enum.filter (fun p => p.1 % n = 0)).map (fun p => p.2)

/-- np.max (0 on an empty list; the source never reaches that case on a
nonempty spectrum). -/
noncomputable def npMax (xs : List ℝ) : ℝ := xs.foldl max (xs.headD 0)

/-- InstrumentCalibrator._objective_function.  The synthetic-spectrum
builder _calculate_spectrum (Voigt profiles through scipy wofz) is an
opaque numeric routine, passed in as calcSpectrum.  The 4x
downsampling, the zero-signal guard, the empty-mask guard and the
Poisson-weighted chi-squared (weights 1/sqrt(counts), so each weighted
squared residual is (m - c)^2 / m) are translated literally.  In the
exact real-number model every value is finite, so the final np.isfinite
guard - which replaces a non-finite chi-squared by 1e10 - can never
fire and the chi-squared branch returns its exact value. -/
noncomputable def objective_function (calcSpectrum : List ℝ → List ℝ)
    (energy measured_counts : List ℝ) : ℝ :=
  let energy_ds := everyNth 4 energy
  let measured_ds := everyNth 4 measured_counts
  let calculated := calcSpectrum energy_ds
  if npMax calculated = 0 then 1e10
  else
    let pairs := (measured_ds.zip calculated).filter (fun p => decide (p.1 > 10))
    if pairs.length = 0 then 1e10
    else ((pairs.map (fun p => (p.1 - p.2) ^ 2 / p.1)).sum) / pairs.length

/-! ## core/background.py: BackgroundModeler -/

/-- The log-log-sqrt forward transform of snip_background. -/
noncomputable def llsForward (s : ℝ) : ℝ :=
  Real.log (Real.log (Real.sqrt (s + 1) + 1) + 1)

/-- The inverse transform applied after the clipping loop. -/
noncomputable def llsInverse (b : ℝ) : ℝ :=
  (Real.exp (Real.exp b - 1) - 1) ^ 2 - 1

/-- One clipping pass of the SNIP loop at a given window size: for each
i in range(window, len - window), sequentially and in place,
background[i] becomes min(background[i],
(background[i-window] + background[i+window]) / 2). -/
noncomputable def snipPass (bg : List ℝ) (window : Nat) : List ℝ :=
  (List.range' window (bg.length - 2 * window)).foldl
    (fun b i => b.set i
      (min (b.getD i 0) ((b.getD (i - window) 0 + b.getD (i + window) 0) / 2)))
    bg

/-- BackgroundModeler.snip_background (decreasing window, the default):
replace nonpositive counts by 1, transform, clip with window sizes
iterations down to 1, transform back, clamp at 0. -/
noncomputable def snip_background (counts : List ℝ) (iterations : Nat := 20) : List ℝ :=
  let spectrum := counts.map (fun c => if c ≤ 0 then 1 else c)
  let log_spectrum := spectrum.map llsForward
  let window_sizes := (List.range' 1 iterations).reverse
  let background := window_sizes.foldl snipPass log_spectrum
  (background.map llsInverse).map (fun x => if x < 0 then 0 else x)

/-- np.polyval Horner evaluation (highest coefficient first). -/
def polyval (coeffs : List ℝ) (x : ℝ) : ℝ :=
  coeffs.foldl (fun acc c => acc * x + c) 0

/-- BackgroundModeler.polynomial_background.  The np.polyfit
least-squares solve is an opaque numeric routine whose coefficient
vector enters as the parameter coeffs (the roi_mask only affects that
fit); the evaluated polynomial is clamped at 0 as in the source. -/
noncomputable def polynomial_background (energy : List ℝ) (coeffs : List ℝ) : List ℝ :=
  (energy.map (polyval coeffs)).map (fun v => if v < 0 then 0 else v)

/-- BackgroundModeler.linear_background: anchor points from explicit
indices, or from the mean of the first 5 percent / last 5 percent of
the data when an index is None (int(n * 0.05) = n * 5 / 100 with exact
arithmetic); then the unclamped straight line through the anchors,
evaluated over the whole energy axis. -/
noncomputable def linear_background (energy counts : List ℝ)
    (startIdx endIdx : Option Nat) : List ℝ :=
  let n := counts.length
  let sp := match startIdx with
    | none => (npMean (counts.take (n * 5 / 100)), npMean (energy.take (n * 5 / 100)))
    | some i => (counts.getD i 0, energy.getD i 0)
  let ep := match endIdx with
    | none => (npMean (counts.drop (n * 95 / 100)), npMean (energy.drop (n * 95 / 100)))
    | some i => (counts.getD i 0, energy.getD i 0)
  let slope := (ep.1 - sp.1) / (ep.2 - sp.2)
  energy.map (fun e => sp.1 + slope * (e - sp.2))

/-- BackgroundModeler.estimate_background.  The source lowercases the
method name first; the model takes the lowercase name.  The adaptive
and als branches delegate wholesale to SciPy numeric routines
(ndimage.percentile_filter, gaussian_filter1d, sparse spsolve) outside
this model, so the dispatcher covers the snip, polynomial, linear and
none branches and returns none otherwise (an unknown method raises
ValueError). -/
noncomputable def estimate_background (energy counts : List ℝ) (method : String)
    (coeffs : List ℝ) (startIdx endIdx : Option Nat) (iterations : Nat := 20) :
    Option (List ℝ) :=
  if method = "snip" then some (snip_background counts iterations)
  else if method = "polynomial" then some (polynomial_background energy coeffs)
  else if method = "linear" then some (linear_background energy counts startIdx endIdx)
  else if method = "none" then some (List.replicate counts.length 0)
  else none

/-! ## JSON value trees for the persisted calibrations -/

/-- JSON values as Python json.dump/json.load see them (ints and floats
kept distinct, tuples serialized as arrays). -/
inductive JVal where
  | num : ℝ → JVal
  | int : ℤ → JVal
  | str : String → JVal
  | bool : Bool → JVal
  | null : JVal
  | arr : List JVal → JVal
  | obj : List (String × JVal) → JVal

/-- Dictionary key access data[k]. -/
def jGet (kvs : List (String × JVal)) (k : String) : Option JVal :=
  (kvs.find? (fun p => p.1 = k)).map (fun p => p.2)

def jNum : JVal → Option ℝ
  | JVal.num x => some x
  | _ => none

def jInt : JVal → Option ℤ
  | JVal.int n => some n
  | _ => none

def jStr : JVal → Option String
  | JVal.str s => some s
  | _ => none

def jBool : JVal → Option Bool
  | JVal.bool b => some b
  | _ => none

/-- A JSON object whose values are all numbers, read back as a float
dictionary. -/
def parseNumEntries : List (String × JVal) → Option (List (String × ℝ))
  | [] => some []
  | (k, v) :: rest => do
      let x ← jNum v
      let xs ← parseNumEntries rest
      pure ((k, x) :: xs)

def jNumDict : JVal → Option (List (String × ℝ))
  | JVal.obj kvs => parseNumEntries kvs
  | _ => none

/-- A two-element JSON array of numbers, read back as a pair
(the tuple-to-list conversion JSON performs on energy_range). -/
def jPair : JVal → Option (ℝ × ℝ)
  | JVal.arr [a, b] =>
    (match jNum a, jNum b with
     | some x, some y => some (x, y)
     | _, _ => none)
  | _ => none

/-- A JSON field that is either null or an object (the optional
fwhm_calibration dictionary). -/
def jOptObj : JVal → Option (Option (List (String × JVal)))
  | JVal.null => some none
  | JVal.obj d => some (some d)
  | _ => none

/-- FWHMCalibration.save: json.dump(asdict(self)) as a value tree. -/
def fwhmCalToDict (m : FWHMCalibration) : List (String × JVal) :=
  [("model_type", JVal.str m.model_type),
   ("parameters", JVal.obj (m.parameters.map (fun p => (p.1, JVal.num p.2)))),
   ("parameter_errors",
     JVal.obj (m.parameter_errors.map (fun p => (p.1, JVal.num p.2)))),
   ("r_squared", JVal.num m.r_squared),
   ("rmse", JVal.num m.rmse),
   ("aic", JVal.num m.aic),
   ("bic", JVal.num m.bic),
   ("n_peaks", JVal.int m.n_peaks),
   ("energy_range", JVal.arr [JVal.num m.energy_range.1, JVal.num m.energy_range.2]),
   ("calibration_date", JVal.str m.calibration_date)]

/-- FWHMCalibration.load: json.load followed by cls(**data); every
dataclass field key must be present with the right kind of value. -/
def fwhmCalFromDict (d : List (String × JVal)) : Option FWHMCalibration := do
  let mt ← jGet d "model_type" >>= jStr
  let ps ← jGet d "parameters" >>= jNumDict
  let pe ← jGet d "parameter_errors" >>= jNumDict
  let r2 ← jGet d "r_squared" >>= jNum
  let rm ← jGet d "rmse" >>= jNum
  let ai ← jGet d "aic" >>= jNum
  let bi ← jGet d "bic" >>= jNum
  let nk ← jGet d "n_peaks" >>= jInt
  let er ← jGet d "energy_range" >>= jPair
  let cd ← jGet d "calibration_date" >>= jStr
  pure { model_type := mt, parameters := ps, parameter_errors := pe,
         r_squared := r2, rmse := rm, aic := ai, bic := bi,
         n_peaks := nk, energy_range := er, calibration_date := cd }

/-- CalibrationResult dataclass from core/calibration.py. -/
structure CalibrationResult where
  fwhm_0 : ℝ
  epsilon : ℝ
  voigt_gamma_ratio : ℝ
  efficiency_params : List (String × ℝ)
  chi_squared : ℝ
  r_squared : ℝ
  success : Bool
  message : String
  fwhm_model_type : String
  fwhm_calibration : Option (List (String × JVal))
  calibration_date : Option String

/-- CalibrationResult.save via to_dict: asdict(self), with a None
calibration_date replaced by the current timestamp (the now
parameter). -/
def calResultToDict (now : String) (r : CalibrationResult) : List (String × JVal) :=
  [("fwhm_0", JVal.num r.fwhm_0),
   ("epsilon", JVal.num r.epsilon),
   ("voigt_gamma_ratio", JVal.num r.voigt_gamma_ratio),
   ("efficiency_params",
     JVal.obj (r.efficiency_params.map (fun p => (p.1, JVal.num p.2)))),
   ("chi_squared", JVal.num r.chi_squared),
   ("r_squared", JVal.num r.r_squared),
   ("success", JVal.bool r.success),
   ("message", JVal.str r.message),
   ("fwhm_model_type", JVal.str r.fwhm_model_type),
   ("fwhm_calibration",
     match r.fwhm_calibration with
     | none => JVal.null
     | some d => JVal.obj d),
   ("calibration_date", JVal.str (r.calibration_date.getD now))]

/-- CalibrationResult.load via from_dict: cls(**data). -/
def calResultFromDict (d : List (String × JVal)) : Option CalibrationResult := do
  let f0 ← jGet d "fwhm_0" >>= jNum
  let ep ← jGet d "epsilon" >>= jNum
  let vg ← jGet d "voigt_gamma_ratio" >>= jNum
  let effp ← jGet d "efficiency_params" >>= jNumDict
  let ch ← jGet d "chi_squared" >>= jNum
  let r2 ← jGet d "r_squared" >>= jNum
  let su ← jGet d "success" >>= jBool
  let ms ← jGet d "message" >>= jStr
  let mt ← jGet d "fwhm_model_type" >>= jStr
  let fc ← jGet d "fwhm_calibration" >>= jOptObj
  let cd ← jGet d "calibration_date" >>= jStr
  pure { fwhm_0 := f0, epsilon := ep, voigt_gamma_ratio := vg,
         efficiency_params := effp, chi_squared := ch, r_squared := r2,
         success := su, message := ms, fwhm_model_type := mt,
         fwhm_calibration := fc, calibration_date := some cd }

/-! ## core/spectrum.py: Spectrum -/

/-- Spectrum dataclass (metadata elided; it is not validated). -/
structure Spectrum where
  energy : List ℝ
  counts : List ℝ
  live_time : ℝ
  real_time : ℝ

/-- Spectrum construction including __post_init__ validation; the
np.asarray(..., float64) coercion is the identity on the embedded real
lists. -/
def mkSpectrum (energy counts : List ℝ) (live_time real_time : ℝ) :
    Except String Spectrum :=
  if energy.length ≠ counts.length then
    Except.error "Energy and counts arrays must have same length"
  else if energy.length = 0 then
    Except.error "Spectrum cannot be empty"
  else
    Except.ok { energy := energy, counts := counts,
                live_time := live_time, real_time := real_time }

def exceptIsOk {ε α : Type} : Except ε α → Bool
  | Except.ok _ => true
  | Except.error _ => false

/-! ## Concrete inputs used to instantiate the calibration theorems -/

/-- Energy at which the detector curve with fwhm_0 = 1, epsilon = 1
evaluates to exactly 2 (since 2.355^2 * outlierE0 = 3). -/
noncomputable def outlierE0 : ℝ := 40000 / 73947

/-- A concrete peak measurement at outlierE0 whose FWHM 5 sits 3 above
the detector curve for popt = (1, 1). -/
noncomputable def outlierMeas : PeakMeasurement :=
  { element := "Fe", line := "Ka", energy := outlierE0, fwhm := 5,
    intensity := 1000, fit_quality := 0.99 }

/-- Six copies of outlierMeas: a calibrator state whose residuals all
equal 3 while their standard deviation is 0, so every point is flagged. -/
noncomputable def sixMeasState : CalibratorState :=
  { measurements := [outlierMeas, outlierMeas, outlierMeas,
      outlierMeas, outlierMeas, outlierMeas] }

theorem maskSelect_nil {α : Type} (xs : List α) : maskSelect xs [] = [] := by
  simp [maskSelect]

theorem maskSelect_cons {α : Type} (x : α) (xs : List α) (b : Bool) (bs : List Bool) :
    maskSelect (x :: xs) (b :: bs)
      = if b then x :: maskSelect xs bs else maskSelect xs bs := by
  cases b <;> simp [maskSelect, List.filter_cons]

theorem maskSelect_sublist {α : Type} : ∀ (xs : List α) (mask : List Bool),
    (maskSelect xs mask).Sublist xs
  | [], _ => by simp [maskSelect]
  | _ :: _, [] => by simp [maskSelect_nil]
  | x :: xs, b :: bs => by
      rw [maskSelect_cons]
      cases b
      · simpa using (maskSelect_sublist xs bs).cons x
      · simpa using (maskSelect_sublist xs bs).cons₂ x

theorem zipWith_sub_map_eq (f : ℝ → ℝ) :
    ∀ (fs es : List ℝ),
      List.zipWith (fun a p => a - p) fs (es.map f)
        = (es.zip fs).map (fun q => q.2 - f q.1)
  | [], [] => rfl
  | [], _ :: _ => rfl
  | _ :: _, [] => rfl
  | a :: fs, e :: es => by
      simpa using zipWith_sub_map_eq f fs es

theorem maskSelect_map_mask_fst (p : ℝ × ℝ → Bool) :
    ∀ (es fs : List ℝ), fs.length = es.length →
      maskSelect es ((es.zip fs).map p) = ((es.zip fs).filter p).map Prod.fst
  | [], [], _ => rfl
  | [], _ :: _, h => by simp at h
  | _ :: _, [], h => by simp at h
  | e :: es, f :: fs, h => by
      have ih := maskSelect_map_mask_fst p es fs (by simpa using h)
      simp only [List.zip_cons_cons, List.map_cons, maskSelect_cons, List.filter_cons]
      cases hp : p (e, f) <;> simp [hp, ih]

theorem maskSelect_map_mask_snd (p : ℝ × ℝ → Bool) :
    ∀ (es fs : List ℝ), fs.length = es.length →
      maskSelect fs ((es.zip fs).map p) = ((es.zip fs).filter p).map Prod.snd
  | [], [], _ => rfl
  | [], _ :: _, h => by simp at h
  | _ :: _, [], h => by simp at h
  | e :: es, f :: fs, h => by
      have ih := maskSelect_map_mask_snd p es fs (by simpa using h)
      simp only [List.zip_cons_cons, List.map_cons, maskSelect_cons, List.filter_cons]
      cases hp : p (e, f) <;> simp [hp, ih]

/-- C2: fit_resolution_model fails with the explicit insufficient-peaks
error exactly when fewer than 3 peak measurements are stored; with 3 or
more it proceeds to the regression stage, none of whose outcomes is that
error. -/
theorem fit_resolution_model_insufficient_iff
    (st : CalibratorState) (outlierFit : List ℝ → List ℝ → ℝ × ℝ)
    (finalFit : String → List ℝ → List ℝ → Except Unit (List ℝ × List ℝ))
    (ro : Bool) (model : String) :
    (fit_resolution_model st outlierFit finalFit ro model).1
        = Except.error CalibError.insufficientPeaks
      ↔ st.measurements.length < 3 := by
  unfold fit_resolution_model
  split
  · simp_all
  · rename_i hge
    simp only []
    constructor
    · intro hc
      exfalso
      revert hc
      unfold regressionStep
      split
      · split <;> simp
      · simp
    · intro hlt
      exact absurd hlt hge

/-- C3: fit_resolution_model runs the outlier stage exactly when
requested and strictly more than 5 measurements are present; and
_remove_outliers returns precisely the input points whose absolute
residual against the fitted detector curve is within 3 standard
deviations of the residual distribution, preserving relative order
(the outputs are sublists of the inputs). -/
theorem outlier_rejection_spec
    (st : CalibratorState) (outlierFit : List ℝ → List ℝ → ℝ × ℝ)
    (finalFit : String → List ℝ → List ℝ → Except Unit (List ℝ × List ℝ))
    (ro : Bool) (model : String)
    (popt : ℝ × ℝ) (es fs : List ℝ) (ms : List PeakMeasurement)
    (hlen : fs.length = es.length) :
    (3 ≤ st.measurements.length → ro = true → st.measurements.length > 5 →
      fit_resolution_model st outlierFit finalFit ro model
        = (let stage := remove_outliers
            (outlierFit (st.measurements.map (fun m => m.energy))
              (st.measurements.map (fun m => m.fwhm)))
            (st.measurements.map (fun m => m.energy))
            (st.measurements.map (fun m => m.fwhm)) st.measurements
          (regressionStep finalFit model stage.energies stage.fwhms,
            { measurements := stage.measurements })))
    ∧ (3 ≤ st.measurements.length → ¬(ro = true ∧ st.measurements.length > 5) →
      fit_resolution_model st outlierFit finalFit ro model
        = (regressionStep finalFit model
            (st.measurements.map (fun m => m.energy))
            (st.measurements.map (fun m => m.fwhm)), st))
    ∧ ((remove_outliers popt es fs ms).energies
        = ((es.zip fs).filter (fun q =>
            !decide (|q.2 - resolution_model q.1 popt.1 popt.2|
              > 3.0 * npStd (List.zipWith (fun f p => f - p) fs
                  (es.map (fun E => resolution_model E popt.1 popt.2)))))).map Prod.fst
      ∧ (remove_outliers popt es fs ms).fwhms
        = ((es.zip fs).filter (fun q =>
            !decide (|q.2 - resolution_model q.1 popt.1 popt.2|
              > 3.0 * npStd (List.zipWith (fun f p => f - p) fs
                  (es.map (fun E => resolution_model E popt.1 popt.2)))))).map Prod.snd)
    ∧ (remove_outliers popt es fs ms).energies.Sublist es
    ∧ (remove_outliers popt es fs ms).fwhms.Sublist fs := by
  refine ⟨?_, ?_, ?_, ?_, ?_⟩
  · intro h3 hro h5
    unfold fit_resolution_model
    rw [if_neg (by omega)]
    simp only [List.length_map]
    rw [if_pos ⟨hro, h5⟩]
  · intro h3 hcond
    unfold fit_resolution_model
    rw [if_neg (by omega)]
    simp only [List.length_map]
    rw [if_neg hcond]
  · unfold remove_outliers
    simp only [zipWith_sub_map_eq, List.map_map]
    set std := npStd ((es.zip fs).map fun q =>
      q.2 - resolution_model q.1 popt.1 popt.2) with hstd
    split
    · constructor
      · rw [maskSelect_map_mask_fst _ es fs hlen]
        congr 1
      · rw [maskSelect_map_mask_snd _ es fs hlen]
        congr 1
    · rename_i hnone
      rw [List.any_eq_true] at hnone
      push_neg at hnone
      have hall : ∀ q ∈ es.zip fs,
          (!decide (|q.2 - resolution_model q.1 popt.1 popt.2| > 3.0 * std)) = true := by
        intro q hq
        have h1 := hnone _ (List.mem_map_of_mem
          ((fun r => decide (|r| > 3.0 * std)) ∘
            fun q : ℝ × ℝ => q.2 - resolution_model q.1 popt.1 popt.2) hq)
        simp only [Function.comp, Bool.not_eq_true] at h1
        simp [h1]
      constructor
      · rw [List.filter_eq_self.mpr hall, List.map_fst_zip es fs (le_of_eq hlen.symm)]
      · rw [List.filter_eq_self.mpr hall, List.map_snd_zip es fs (le_of_eq hlen)]
  · unfold remove_outliers
    simp only [zipWith_sub_map_eq, List.map_map]
    split
    · exact maskSelect_sublist _ _
    · exact List.Sublist.refl _
  · unfold remove_outliers
    simp only [zipWith_sub_map_eq, List.map_map]
    split
    · exact maskSelect_sublist _ _
    · exact List.Sublist.refl _

/-- Witness for outlier_rejection_spec at a concrete three-measurement
state (outlier stage skipped) and a concrete one-point removal input. -/
theorem outlier_rejection_spec_witness :
    fit_resolution_model ⟨[outlierMeas, outlierMeas, outlierMeas]⟩
        (fun _ _ => (1, 1)) (fun _ _ _ => Except.error ()) true "detector"
      = (regressionStep (fun _ _ _ => Except.error ()) "detector"
          ([outlierMeas, outlierMeas, outlierMeas].map (fun m => m.energy))
          ([outlierMeas, outlierMeas, outlierMeas].map (fun m => m.fwhm)),
        ⟨[outlierMeas, outlierMeas, outlierMeas]⟩)
    ∧ (remove_outliers (1, 1) [outlierE0] [2] []).energies.Sublist [outlierE0] :=
  ⟨(outlier_rejection_spec ⟨[outlierMeas, outlierMeas, outlierMeas]⟩
      (fun _ _ => (1, 1)) (fun _ _ _ => Except.error ()) true "detector"
      (1, 1) [outlierE0] [2] [] (by simp)).2.1 (by simp) (by simp),
   (outlier_rejection_spec ⟨[outlierMeas, outlierMeas, outlierMeas]⟩
      (fun _ _ => (1, 1)) (fun _ _ _ => Except.error ()) true "detector"
      (1, 1) [outlierE0] [2] [] (by simp)).2.2.2.1⟩

theorem resolution_model_outlierE0 : resolution_model outlierE0 1 1 = 2 := by
  unfold resolution_model outlierE0
  rw [show (1 : ℝ) ^ 2 + 2.355 ^ 2 * 1 * (40000 / 73947) = 2 ^ 2 by norm_num]
  exact Real.sqrt_sq (by norm_num)

theorem npStd_six_threes : npStd [3, 3, 3, 3, 3, 3] = 0 := by
  have h1 : npMean [3, 3, 3, 3, 3, 3] = 3 := by
    simp [npMean]
    norm_num
  unfold npStd
  rw [h1]
  norm_num [npMean, Real.sqrt_zero]

/-- C9 counterexample: a fit_resolution_model call on a stored list of
six measurements (all with residual 3 against the oracle-fitted curve,
hence standard deviation 0, hence all flagged) empties the stored
measurements list: the invocation is not side-effect-free. -/
theorem fit_resolution_model_mutates_state :
    (fit_resolution_model sixMeasState (fun _ _ => (1, 1))
        (fun _ _ _ => Except.error ()) true "detector").2 ≠ sixMeasState := by
  have hro : remove_outliers (1, 1)
      [outlierE0, outlierE0, outlierE0, outlierE0, outlierE0, outlierE0]
      [5, 5, 5, 5, 5, 5]
      [outlierMeas, outlierMeas, outlierMeas, outlierMeas, outlierMeas, outlierMeas]
      = ⟨[], [], []⟩ := by
    unfold remove_outliers
    simp only [List.map_cons, List.map_nil, resolution_model_outlierE0]
    rw [show List.zipWith (fun f p => f - p) [(5 : ℝ), 5, 5, 5, 5, 5] [2, 2, 2, 2, 2, 2]
        = [3, 3, 3, 3, 3, 3] by norm_num [List.zipWith]]
    rw [npStd_six_threes]
    rw [show (List.map (fun r => decide (|r| > 3.0 * (0 : ℝ))) [(3 : ℝ), 3, 3, 3, 3, 3])
        = [true, true, true, true, true, true] by
      have hd : decide (|(3 : ℝ)| > 3.0 * (0 : ℝ)) = true :=
        decide_eq_true (by norm_num)
      simp only [List.map_cons, List.map_nil, hd]]
    simp [maskSelect]
  have hE : outlierMeas.energy = outlierE0 := rfl
  have hF : outlierMeas.fwhm = (5 : ℝ) := rfl
  intro h
  have h2 : (fit_resolution_model sixMeasState (fun _ _ => (1, 1))
      (fun _ _ _ => Except.error ()) true "detector").2.measurements = [] := by
    unfold fit_resolution_model
    rw [if_neg (by simp [sixMeasState])]
    simp only [sixMeasState, List.map_cons, List.map_nil, hE, hF]
    rw [if_pos (by simp)]
    rw [hro]
  rw [h] at h2
  simp [sixMeasState] at h2

/-- C9 amended: fit_resolution_model is not free of side effects on the
calibrator state: when the outlier stage runs and flags points, the
flagged measurements are removed from the stored list (what remains is a
sublist); the stored list is unchanged only when there are fewer than 3
measurements, when the outlier stage is skipped, or when no point is
flagged.  Moreover single-peak fitting genuinely reads the class-level
defaults FWHM_0/EPSILON of PeakFitter: changing them changes
calculate_fwhm. -/
theorem fit_resolution_model_state_spec
    (st : CalibratorState) (outlierFit : List ℝ → List ℝ → ℝ × ℝ)
    (finalFit : String → List ℝ → List ℝ → Except Unit (List ℝ × List ℝ))
    (ro : Bool) (model : String)
    (popt : ℝ × ℝ) (es fs : List ℝ) (ms : List PeakMeasurement) :
    (st.measurements.length < 3 →
      (fit_resolution_model st outlierFit finalFit ro model).2 = st)
    ∧ (¬(ro = true ∧ st.measurements.length > 5) →
      (fit_resolution_model st outlierFit finalFit ro model).2 = st)
    ∧ (remove_outliers popt es fs ms).measurements.Sublist ms
    ∧ ((∀ r ∈ List.zipWith (fun f p => f - p) fs
          (es.map (fun E => resolution_model E popt.1 popt.2)),
        ¬(|r| > 3.0 * npStd (List.zipWith (fun f p => f - p) fs
          (es.map (fun E => resolution_model E popt.1 popt.2))))) →
      remove_outliers popt es fs ms = ⟨es, fs, ms⟩)
    ∧ calculate_fwhm ⟨0.05, 0.0015⟩ 1 ≠ calculate_fwhm ⟨0.1, 0.0015⟩ 1 := by
  refine ⟨?_, ?_, ?_, ?_, ?_⟩
  · intro h3
    unfold fit_resolution_model
    rw [if_pos h3]
  · intro hcond
    unfold fit_resolution_model
    split
    · rfl
    · simp only [List.length_map]
      rw [if_neg hcond]
  · unfold remove_outliers
    simp only [zipWith_sub_map_eq, List.map_map]
    split
    · exact maskSelect_sublist _ _
    · exact List.Sublist.refl _
  · intro hall
    unfold remove_outliers
    simp only []
    rw [if_neg]
    simp only [List.any_eq_true, not_exists, not_and]
    intro b hb hbt
    rcases List.mem_map.mp hb with ⟨r, hr, hrb⟩
    exact hall r hr (of_decide_eq_true (hrb.trans hbt))
  · unfold calculate_fwhm
    intro h
    have h2 : ((0.05 : ℝ) ^ 2 + 2.35 * 0.0015 * 1) =
        ((0.1 : ℝ) ^ 2 + 2.35 * 0.0015 * 1) :=
      (Real.sqrt_inj (by norm_num) (by norm_num)).mp h
    norm_num at h2

/-- Witness for fit_resolution_model_state_spec: a one-measurement state
is left unchanged, and an all-on-curve single point is never flagged. -/
theorem fit_resolution_model_state_spec_witness :
    (fit_resolution_model ⟨[outlierMeas]⟩ (fun _ _ => (1, 1))
        (fun _ _ _ => Except.error ()) true "detector").2 = ⟨[outlierMeas]⟩
    ∧ remove_outliers (1, 1) [outlierE0] [2] [outlierMeas]
        = ⟨[outlierE0], [2], [outlierMeas]⟩ := by
  constructor
  · exact (fit_resolution_model_state_spec ⟨[outlierMeas]⟩ (fun _ _ => (1, 1))
      (fun _ _ _ => Except.error ()) true "detector" (1, 1) [] [] []).1 (by simp)
  · refine (fit_resolution_model_state_spec ⟨[outlierMeas]⟩ (fun _ _ => (1, 1))
      (fun _ _ _ => Except.error ()) true "detector" (1, 1)
      [outlierE0] [2] [outlierMeas]).2.2.2.1 ?_
    simp only [List.map_cons, List.map_nil, resolution_model_outlierE0]
    rw [show List.zipWith (fun f p => f - p) [(2 : ℝ)] [2] = [0] by norm_num [List.zipWith]]
    intro r hr
    rcases List.mem_singleton.mp hr with rfl
    have h0 : npStd [(0 : ℝ)] = 0 := by
      simp [npStd, npMean, Real.sqrt_eq_zero']
    rw [h0]
    norm_num

/-- C1 counterexample: at energy 1 keV with the class defaults
FWHM_0 = 0.050, EPSILON = 0.0015, PeakFitter.calculate_fwhm does NOT
equal the spec formula sqrt(FWHM0^2 + 2.355^2 * eps * E): the source
multiplies epsilon by 2.35, not by 2.355^2. -/
theorem calculate_fwhm_ne_spec_at_one :
    calculate_fwhm defaultPeakFitterConfig 1 ≠ specDetectorFWHM 0.050 0.0015 1 := by
  unfold calculate_fwhm specDetectorFWHM defaultPeakFitterConfig
  intro h
  have h2 : ((0.050 : ℝ) ^ 2 + 2.35 * 0.0015 * 1) =
      ((0.050 : ℝ) ^ 2 + 2.355 ^ 2 * 0.0015 * 1) :=
    (Real.sqrt_inj (by norm_num) (by norm_num)).mp h
  norm_num at h2

/-- C1 amended: FWHMCalibration.predict_fwhm for model_type detector
returns exactly the spec formula sqrt(fwhm_0^2 + 2.355^2 * epsilon * E),
while PeakFitter.calculate_fwhm and the window-estimation formula inside
InstrumentCalibrator._prepare_element_data_from_spectrum both use the
coefficient 2.35 instead of 2.355^2, returning
sqrt(fwhm_0^2 + 2.35 * epsilon * E). -/
theorem detector_fwhm_three_sites (fwhm_0 epsilon energy : ℝ)
    (errs : List (String × ℝ)) (r2 rm ai bi : ℝ) (nk : ℤ) (er : ℝ × ℝ) (cd : String) :
    predict_fwhm ⟨"detector", [("fwhm_0", fwhm_0), ("epsilon", epsilon)],
        errs, r2, rm, ai, bi, nk, er, cd⟩ energy
      = some (specDetectorFWHM fwhm_0 epsilon energy)
    ∧ calculate_fwhm ⟨fwhm_0, epsilon⟩ energy
      = Real.sqrt (fwhm_0 ^ 2 + 2.35 * epsilon * energy)
    ∧ prepare_fwhm_est fwhm_0 epsilon energy
      = Real.sqrt (fwhm_0 ^ 2 + 2.35 * epsilon * energy) := by
  refine ⟨?_, rfl, rfl⟩
  simp [predict_fwhm, lookupParam, specDetectorFWHM]

theorem maskSelect_self_map {α : Type} (p : α → Bool) :
    ∀ xs : List α, maskSelect xs (xs.map p) = xs.filter p
  | [] => rfl
  | x :: xs => by
      rw [List.map_cons, maskSelect_cons, List.filter_cons]
      cases hp : p x <;> simp [hp, maskSelect_self_map p xs]

theorem count_true_map {α : Type} (p : α → Bool) :
    ∀ xs : List α, (xs.map p).count true = (xs.filter p).length
  | [] => rfl
  | x :: xs => by
      rw [List.map_cons, List.filter_cons]
      cases hp : p x <;>
        simp [List.count_cons, hp, count_true_map p xs]

theorem calculate_fwhm_default_zero :
    calculate_fwhm defaultPeakFitterConfig 0 = 0.05 := by
  unfold calculate_fwhm defaultPeakFitterConfig
  rw [show (0.050 : ℝ) ^ 2 + 2.35 * 0.0015 * 0 = 0.05 ^ 2 by norm_num]
  exact Real.sqrt_sq (by norm_num)

/-- C5: fit_single_peak selects exactly the samples whose energy lies
within k x FWHM_estimate(center) of the candidate center, with k = 5
when the center is below 3 keV and k = 3 otherwise, and it returns no
Peak whenever fewer than 5 samples fall in that window. -/
theorem fit_single_peak_window_spec (cfg : PeakFitterConfig)
    (curveFit : String → List ℝ → List ℝ → Option (List ℝ))
    (energy counts : List ℝ) (c : ℝ) (shape : String)
    (hlen : counts.length = energy.length) :
    (maskSelect energy (fitWindowMask cfg energy c)
      = energy.filter (fun e =>
          decide (|e - c| < (if c < 3.0 then 5.0 else 3.0) * calculate_fwhm cfg c)))
    ∧ (maskSelect counts (fitWindowMask cfg energy c)
      = ((energy.zip counts).filter (fun q =>
          decide (|q.1 - c| < (if c < 3.0 then 5.0 else 3.0) * calculate_fwhm cfg c))).map
            Prod.snd)
    ∧ ((energy.filter (fun e =>
          decide (|e - c| < (if c < 3.0 then 5.0 else 3.0) * calculate_fwhm cfg c))).length < 5 →
        fit_single_peak cfg curveFit energy counts c shape = none) := by
  have hww : fit_window_width cfg c = (if c < 3.0 then 5.0 else 3.0) * calculate_fwhm cfg c := by
    unfold fit_window_width
    split <;> simp
  have hmask : fitWindowMask cfg energy c
      = energy.map (fun e =>
          decide (|e - c| < (if c < 3.0 then 5.0 else 3.0) * calculate_fwhm cfg c)) := by
    unfold fitWindowMask
    rw [hww]
  refine ⟨?_, ?_, ?_⟩
  · rw [hmask, maskSelect_self_map]
  · rw [hmask]
    have hzip : energy.map (fun e =>
        decide (|e - c| < (if c < 3.0 then 5.0 else 3.0) * calculate_fwhm cfg c))
        = (energy.zip counts).map (fun q =>
            decide (|q.1 - c| < (if c < 3.0 then 5.0 else 3.0) * calculate_fwhm cfg c)) := by
      have h1 : (energy.zip counts).map (fun q =>
          decide (|q.1 - c| < (if c < 3.0 then 5.0 else 3.0) * calculate_fwhm cfg c))
          = ((energy.zip counts).map Prod.fst).map (fun e =>
              decide (|e - c| < (if c < 3.0 then 5.0 else 3.0) * calculate_fwhm cfg c)) := by
        rw [List.map_map]
        rfl
      rw [h1, List.map_fst_zip energy counts (le_of_eq hlen.symm)]
    rw [hzip, maskSelect_map_mask_snd _ energy counts hlen]
  · intro hfew
    unfold fit_single_peak
    rw [if_pos]
    rw [hmask, count_true_map]
    exact hfew

/-- Witness for fit_single_peak_window_spec: center 0 (below 3 keV,
k = 5, window half-width 0.25 with the default configuration) selects
only the sample at 0 out of (0, 1, 2), and the fit returns none. -/
theorem fit_single_peak_window_spec_witness :
    maskSelect [0, 1, 2] (fitWindowMask defaultPeakFitterConfig [0, 1, 2] 0) = [(0 : ℝ)]
    ∧ fit_single_peak defaultPeakFitterConfig (fun _ _ _ => none)
        [0, 1, 2] [5, 6, 7] 0 "gaussian" = none := by
  have h := fit_single_peak_window_spec defaultPeakFitterConfig (fun _ _ _ => none)
    [0, 1, 2] [5, 6, 7] 0 "gaussian" (by simp)
  have hb0 : decide (|(0 : ℝ) - 0| < (if (0 : ℝ) < 3.0 then 5.0 else 3.0)
      * calculate_fwhm defaultPeakFitterConfig 0) = true := by
    rw [decide_eq_true_eq, calculate_fwhm_default_zero,
      if_pos (show (0 : ℝ) < 3.0 by norm_num),
      show (0 : ℝ) - 0 = 0 by norm_num, abs_zero]
    norm_num
  have hb1 : decide (|(1 : ℝ) - 0| < (if (0 : ℝ) < 3.0 then 5.0 else 3.0)
      * calculate_fwhm defaultPeakFitterConfig 0) = false := by
    rw [decide_eq_false_iff_not, calculate_fwhm_default_zero,
      if_pos (show (0 : ℝ) < 3.0 by norm_num),
      show (1 : ℝ) - 0 = 1 by norm_num, abs_one]
    norm_num
  have hb2 : decide (|(2 : ℝ) - 0| < (if (0 : ℝ) < 3.0 then 5.0 else 3.0)
      * calculate_fwhm defaultPeakFitterConfig 0) = false := by
    rw [decide_eq_false_iff_not, calculate_fwhm_default_zero,
      if_pos (show (0 : ℝ) < 3.0 by norm_num),
      show (2 : ℝ) - 0 = 2 by norm_num,
      show |(2 : ℝ)| = 2 from abs_of_nonneg (by norm_num)]
    norm_num
  have hfil : ([0, 1, 2] : List ℝ).filter (fun e =>
      decide (|e - 0| < (if (0 : ℝ) < 3.0 then 5.0 else 3.0)
        * calculate_fwhm defaultPeakFitterConfig 0)) = [0] := by
    simp only [List.filter_cons, List.filter_nil, hb0, hb1, hb2]
    simp
  exact ⟨h.1.trans hfil, h.2.2 (by rw [hfil]; norm_num)⟩

/-- C6 counterexample: the tail_gaussian branch applies no tail
correction to the area: with a nonzero tail fraction 1/2 the stored
area coincides exactly with the uncorrected Gaussian area. -/
theorem tail_gaussian_area_uncorrected :
    (mkTailGaussianPeak 1 5 1 (1 / 2) 3).area = (mkGaussianPeak 1 5 1).area
    ∧ ((1 : ℝ) / 2) ≠ 0 :=
  ⟨rfl, by norm_num⟩

/-- C6 amended: areas are computed analytically from the fitted shape
parameters: amp sigma sqrt(2 pi) for gaussian; the hypermet area carries
the genuine tail correction factor (1 + tail_amplitude), which changes
the area whenever the tail amplitude is nonzero; the tail_gaussian area
is the plain Gaussian expression with no tail correction. -/
theorem peak_area_formulas (a c s ta ts tf tsg : ℝ) :
    (mkGaussianPeak a c s).area = a * s * Real.sqrt (2 * Real.pi)
    ∧ (mkHypermetPeak a c s ta ts).area = a * s * Real.sqrt (2 * Real.pi) * (1 + ta)
    ∧ (mkTailGaussianPeak a c s tf tsg).area = a * s * Real.sqrt (2 * Real.pi)
    ∧ (a ≠ 0 → s ≠ 0 → ta ≠ 0 →
        (mkHypermetPeak a c s ta ts).area ≠ (mkGaussianPeak a c s).area) := by
  refine ⟨rfl, rfl, rfl, ?_⟩
  intro ha hs hta
  unfold mkHypermetPeak mkGaussianPeak
  simp only []
  intro h
  have hsqrt : Real.sqrt (2 * Real.pi) ≠ 0 := by
    have : (0 : ℝ) < 2 * Real.pi := by positivity
    exact ne_of_gt (Real.sqrt_pos.mpr this)
  have hA : a * s * Real.sqrt (2 * Real.pi) ≠ 0 := by
    exact mul_ne_zero (mul_ne_zero ha hs) hsqrt
  have h1 : (1 : ℝ) + ta = 1 := mul_left_cancel₀ hA (by rw [mul_one]; exact h)
  apply hta
  linarith

/-- Witness for peak_area_formulas at amplitude 1, sigma 1, tail
amplitude 1: the hypermet area differs from the Gaussian area. -/
theorem peak_area_formulas_witness :
    (mkHypermetPeak 1 0 1 1 2).area ≠ (mkGaussianPeak 1 0 1).area :=
  (peak_area_formulas 1 0 1 1 2 0 0).2.2.2 (by norm_num) (by norm_num) (by norm_num)

/-- C7: the intensity-calibration objective is total and never
non-finite on the real model: its value is the large finite penalty
1e10 when the calculated spectrum has zero maximum or when no signal
point passes the mask, and otherwise the exact nonnegative
Poisson-weighted chi-squared; in all cases it is nonnegative. -/
theorem objective_function_spec (calcSpectrum : List ℝ → List ℝ)
    (energy measured : List ℝ) :
    (0 ≤ objective_function calcSpectrum energy measured)
    ∧ (npMax (calcSpectrum (everyNth 4 energy)) = 0 →
        objective_function calcSpectrum energy measured = 1e10)
    ∧ (((everyNth 4 measured).zip (calcSpectrum (everyNth 4 energy))).filter
          (fun p => decide (p.1 > 10)) = [] →
        objective_function calcSpectrum energy measured = 1e10)
    ∧ (objective_function calcSpectrum energy measured = 1e10
       ∨ objective_function calcSpectrum energy measured
          = ((((everyNth 4 measured).zip (calcSpectrum (everyNth 4 energy))).filter
                (fun p => decide (p.1 > 10))).map (fun p => (p.1 - p.2) ^ 2 / p.1)).sum
            / (((everyNth 4 measured).zip (calcSpectrum (everyNth 4 energy))).filter
                (fun p => decide (p.1 > 10))).length) := by
  have hnn : (0 : ℝ) ≤
      ((((everyNth 4 measured).zip (calcSpectrum (everyNth 4 energy))).filter
          (fun p => decide (p.1 > 10))).map (fun p => (p.1 - p.2) ^ 2 / p.1)).sum := by
    apply List.sum_nonneg
    intro x hx
    rcases List.mem_map.mp hx with ⟨p, hp, rfl⟩
    have hp10 : p.1 > 10 := of_decide_eq_true (List.mem_filter.mp hp).2
    exact div_nonneg (sq_nonneg _) (by linarith)
  have h1 : npMax (calcSpectrum (everyNth 4 energy)) = 0 →
      objective_function calcSpectrum energy measured = 1e10 := by
    intro h
    unfold objective_function
    simp only []
    rw [if_pos h]
  have h2 : ((everyNth 4 measured).zip (calcSpectrum (everyNth 4 energy))).filter
      (fun p => decide (p.1 > 10)) = [] →
      objective_function calcSpectrum energy measured = 1e10 := by
    intro h
    by_cases h0 : npMax (calcSpectrum (everyNth 4 energy)) = 0
    · exact h1 h0
    · unfold objective_function
      simp only []
      rw [if_neg h0, h]
      simp
  have h3 : objective_function calcSpectrum energy measured = 1e10
      ∨ objective_function calcSpectrum energy measured
        = ((((everyNth 4 measured).zip (calcSpectrum (everyNth 4 energy))).filter
              (fun p => decide (p.1 > 10))).map (fun p => (p.1 - p.2) ^ 2 / p.1)).sum
          / (((everyNth 4 measured).zip (calcSpectrum (everyNth 4 energy))).filter
              (fun p => decide (p.1 > 10))).length := by
    by_cases h0 : npMax (calcSpectrum (everyNth 4 energy)) = 0
    · exact Or.inl (h1 h0)
    · by_cases hl : (((everyNth 4 measured).zip (calcSpectrum (everyNth 4 energy))).filter
          (fun p => decide (p.1 > 10))).length = 0
      · left
        exact h2 (List.length_eq_zero.mp hl)
      · right
        unfold objective_function
        simp only []
        rw [if_neg h0, if_neg hl]
  refine ⟨?_, h1, h2, h3⟩
  rcases h3 with h | h
  · rw [h]; norm_num
  · rw [h]
    exact div_nonneg hnn (Nat.cast_nonneg _)

/-- Witness for objective_function_spec: an all-zero calculated
spectrum yields the penalty 1e10. -/
theorem objective_function_spec_witness :
    objective_function (fun _ => [0]) [1] [12] = 1e10 := by
  apply (objective_function_spec (fun _ => [0]) [1] [12]).2.1
  show npMax [(0 : ℝ)] = 0
  simp [npMax]

theorem foldl_length_eq {α β : Type} (f : List α → β → List α)
    (hf : ∀ b x, (f b x).length = b.length) :
    ∀ (l : List β) (b : List α), (l.foldl f b).length = b.length
  | [], _ => rfl
  | x :: l, b => by
      rw [List.foldl_cons, foldl_length_eq f hf l (f b x), hf]

theorem snipPass_length (bg : List ℝ) (w : Nat) :
    (snipPass bg w).length = bg.length := by
  unfold snipPass
  exact foldl_length_eq _ (fun b i => by simp) _ _

theorem snip_background_length (counts : List ℝ) (iterations : Nat) :
    (snip_background counts iterations).length = counts.length := by
  unfold snip_background
  simp only [List.length_map]
  rw [foldl_length_eq snipPass (fun b x => snipPass_length b x) _ _]
  simp

theorem clamp_mem_nonneg (l : List ℝ) :
    ∀ x ∈ l.map (fun v => if v < 0 then 0 else v), 0 ≤ x := by
  intro x hx
  rcases List.mem_map.mp hx with ⟨v, hv, rfl⟩
  split
  · exact le_refl 0
  · rename_i h
    exact le_of_not_lt h

/-- C4 counterexample: the linear background is not clamped against the
counts: on energy (0,1,2), counts (10,0,10) with explicit anchor
indices 0 and 2, the estimated background is (10,10,10), exceeding the
middle count 0 (the counts are all nonnegative). -/
theorem linear_background_exceeds_counts :
    estimate_background [0, 1, 2] [10, 0, 10] "linear" [] (some 0) (some 2) 20
      = some [10, 10, 10]
    ∧ ¬((10 : ℝ) ≤ 0) := by
  constructor
  · unfold estimate_background
    rw [if_neg (by decide), if_neg (by decide), if_pos rfl]
    unfold linear_background
    simp only [List.getD]
    norm_num
  · norm_num

/-- C4 amended: for the snip, polynomial, linear and none methods the
background has the same length as counts; the snip, polynomial and none
curves are additionally clamped pointwise at 0; the linear curve is
unclamped and need not lie below counts (the adaptive and als branches
delegate to SciPy numeric routines outside this model). -/
theorem estimate_background_spec (energy counts coeffs : List ℝ)
    (si ei : Option Nat) (iterations : Nat)
    (hlen : energy.length = counts.length) :
    (estimate_background energy counts "snip" coeffs si ei iterations
        = some (snip_background counts iterations)
      ∧ (snip_background counts iterations).length = counts.length
      ∧ ∀ x ∈ snip_background counts iterations, 0 ≤ x)
    ∧ (estimate_background energy counts "polynomial" coeffs si ei iterations
        = some (polynomial_background energy coeffs)
      ∧ (polynomial_background energy coeffs).length = counts.length
      ∧ ∀ x ∈ polynomial_background energy coeffs, 0 ≤ x)
    ∧ (estimate_background energy counts "linear" coeffs si ei iterations
        = some (linear_background energy counts si ei)
      ∧ (linear_background energy counts si ei).length = counts.length)
    ∧ (estimate_background energy counts "none" coeffs si ei iterations
        = some (List.replicate counts.length 0)
      ∧ ∀ x ∈ List.replicate counts.length (0 : ℝ), 0 ≤ x) := by
  refine ⟨⟨?_, ?_, ?_⟩, ⟨?_, ?_, ?_⟩, ⟨?_, ?_⟩, ⟨?_, ?_⟩⟩
  · unfold estimate_background
    rw [if_pos rfl]
  · exact snip_background_length counts iterations
  · unfold snip_background
    simp only []
    exact clamp_mem_nonneg _
  · unfold estimate_background
    rw [if_neg (by decide), if_pos rfl]
  · unfold polynomial_background
    simp only [List.length_map]
    exact hlen
  · unfold polynomial_background
    exact clamp_mem_nonneg _
  · unfold estimate_background
    rw [if_neg (by decide), if_neg (by decide), if_pos rfl]
  · unfold linear_background
    simp only [List.length_map]
    exact hlen
  · unfold estimate_background
    rw [if_neg (by decide), if_neg (by decide), if_neg (by decide), if_pos rfl]
  · intro x hx
    rw [List.eq_of_mem_replicate hx]

/-- Witness for estimate_background_spec on a concrete three-channel
spectrum. -/
theorem estimate_background_spec_witness :
    (snip_background [1, 2, 3] 20).length = 3
    ∧ ∀ x ∈ snip_background [1, 2, 3] 20, 0 ≤ x := by
  have h := estimate_background_spec [0, 1, 2] [1, 2, 3] [] none none 20 (by simp)
  exact ⟨h.1.2.1, h.1.2.2⟩

theorem parseNumEntries_roundtrip (ps : List (String × ℝ)) :
    parseNumEntries (ps.map (fun p => (p.1, JVal.num p.2))) = some ps := by
  induction ps with
  | nil => rfl
  | cons p ps ih =>
      cases p with
      | mk k v => simp [parseNumEntries, jNum, ih]

/-- C8: both persisted calibrations round-trip through their JSON value
trees: FWHMCalibration decodes back to exactly itself (energy_range
included, read back from the serialized two-element array), and
CalibrationResult decodes back with every numeric field (fwhm_0,
epsilon, voigt_gamma_ratio, chi_squared, r_squared and the nested
efficiency_params) and every other field preserved, except that a None
calibration_date is replaced by the save-time timestamp. -/
theorem save_load_round_trip (m : FWHMCalibration) (r : CalibrationResult)
    (now : String) :
    fwhmCalFromDict (fwhmCalToDict m) = some m
    ∧ calResultFromDict (calResultToDict now r)
        = some { r with calibration_date := some (r.calibration_date.getD now) } := by
  constructor
  · cases m with
    | mk mt ps pe r2 rm ai bi nk er cd =>
      cases er with
      | mk e1 e2 =>
        simp [fwhmCalToDict, fwhmCalFromDict, jGet, jStr, jNum, jInt, jNumDict,
          jPair, parseNumEntries_roundtrip]
  · cases r with
    | mk f0 ep vg effp ch r2 su ms mt fc cd =>
      cases fc <;>
        simp [calResultToDict, calResultFromDict, jGet, jStr, jNum, jBool,
          jNumDict, jOptObj, parseNumEntries_roundtrip]

/-- C10: Spectrum construction fails (raises ValueError) exactly when
the energy and counts sequences differ in length or are empty; on every
other input it succeeds, storing the arrays unchanged, and every
constructed Spectrum has equal-length nonempty arrays. -/
theorem spectrum_validation (energy counts : List ℝ) (ltime rtime : ℝ) :
    (exceptIsOk (mkSpectrum energy counts ltime rtime) = false
      ↔ (energy.length ≠ counts.length ∨ energy.length = 0))
    ∧ (energy.length = counts.length → energy.length ≠ 0 →
        mkSpectrum energy counts ltime rtime
          = Except.ok { energy := energy
                        counts := counts
                        live_time := ltime
                        real_time := rtime })
    ∧ (∀ s, mkSpectrum energy counts ltime rtime = Except.ok s →
        s.energy.length = s.counts.length ∧ 0 < s.counts.length) := by
  refine ⟨?_, ?_, ?_⟩
  · unfold mkSpectrum
    split
    · rename_i h
      simp [exceptIsOk, h]
    · rename_i h
      split
      · rename_i h0
        simp [exceptIsOk, h0]
      · rename_i h0
        simp [exceptIsOk, h, h0]
  · intro hl h0
    unfold mkSpectrum
    rw [if_neg (by simp [hl]), if_neg h0]
  · intro s hs
    unfold mkSpectrum at hs
    split at hs
    · exact absurd hs (by simp)
    · rename_i h
      split at hs
      · exact absurd hs (by simp)
      · rename_i h0
        cases hs with
        | refl =>
          have he : energy.length = counts.length := not_not.mp h
          have h1 : energy.length ≠ 0 := h0
          exact ⟨by simpa using he, by simp only []; omega⟩

/-- Witness for spectrum_validation: a one-channel spectrum constructs
successfully and satisfies the invariant. -/
theorem spectrum_validation_witness :
    mkSpectrum [0] [1] 100 100
      = Except.ok { energy := [0], counts := [1], live_time := 100, real_time := 100 }
    ∧ (({ energy := [0], counts := [1], live_time := 100, real_time := 100 } :
        Spectrum).energy.length
        = ({ energy := [0], counts := [1], live_time := 100, real_time := 100 } :
          Spectrum).counts.length
      ∧ 0 < ({ energy := [0], counts := [1], live_time := 100, real_time := 100 } :
          Spectrum).counts.length) := by
  have h := spectrum_validation [0] [1] 100 100
  have hok := h.2.1 (by simp) (by simp)
  exact ⟨hok, h.2.2 _ hok⟩

end XRFLab
